import Mathlib

set_option maxHeartbeats 2000000

/- Shallow embedding of the UhakikiAI risk-scoring and validation engine:
   the validators and risk engine of src/lib/validation.ts and the deepfake
   heuristic of src/components/DeepfakeWarning.tsx.  JavaScript numbers are
   modelled as rationals, strings as Lean strings, optional fields as Option,
   and the current clock reading (new Date()) as an explicit civil-date
   parameter threaded through every function that consults it. -/

/-- A civil calendar date (year, month 1..12, day 1..31); models the current
clock reading used by validateDateOfBirth. -/
structure CivilDate where
  year : ℤ
  month : ℤ
  day : ℤ
  deriving DecidableEq

/-- Proleptic-Gregorian leap-year test, as used by the JavaScript Date type. -/
def isLeap (y : ℤ) : Bool :=
  decide ((y.emod 4 = 0 ∧ ¬ y.emod 100 = 0) ∨ y.emod 400 = 0)

/-- Number of multiples of n in the interval [0, a) for n > 0 (ceiling of a/n
for a ≥ 0); helper for counting leap years. -/
def cdiv (a n : ℤ) : ℤ := (a + n - 1).ediv n

/-- Day count of the first day of year y, counting from 0000-01-01 as day 0
(proleptic Gregorian, matching the JavaScript Date day arithmetic). -/
def daysBeforeYear (y : ℤ) : ℤ := 365 * y + cdiv y 4 - cdiv y 100 + cdiv y 400

/-- Cumulative day count of the months before month m (1..12) in a year whose
leap flag is lp. -/
def monthOffset (lp : Bool) (m : ℤ) : ℤ :=
  (if m ≤ 1 then 0 else if m = 2 then 31 else if m = 3 then 59 else if m = 4 then 90
   else if m = 5 then 120 else if m = 6 then 151 else if m = 7 then 181 else if m = 8 then 212
   else if m = 9 then 243 else if m = 10 then 273 else if m = 11 then 304 else 334)
  + (if lp ∧ 3 ≤ m then 1 else 0)

/-- Day number of the civil date (y, m, d) for m in 1..12; d may exceed the
month length, the excess rolling over into later months exactly as in the
JavaScript Date day arithmetic. -/
def dateValue (y m d : ℤ) : ℤ := daysBeforeYear y + monthOffset (isLeap y) m + (d - 1)

/-- Day number of a civil date record. -/
def civilDays (c : CivilDate) : ℤ := dateValue c.year c.month c.day

/-- Day number produced by the JavaScript constructor new Date(y, mIdx, d):
years 0..99 are read as 1900..1999, and an out-of-range month index or day
rolls over into adjacent years/months. -/
def jsMakeDate (y mIdx d : ℤ) : ℤ :=
  let yr := if 0 ≤ y ∧ y ≤ 99 then 1900 + y else y
  let months := yr * 12 + mIdx
  dateValue (months.ediv 12) (months.emod 12 + 1) d

/-- JavaScript Math.round for our purposes: floor(q + 1/2). -/
def jsRound (q : ℚ) : ℤ := ⌊q + 1/2⌋

/-- Lower-cases a string character-wise (model of String.prototype.toLowerCase
on the ASCII data this program handles). -/
def strLower (s : String) : String := s.map Char.toLower

/-- Upper-cases a string character-wise (model of String.prototype.toUpperCase
on the ASCII data this program handles). -/
def strUpper (s : String) : String := s.map Char.toUpper

/-- Whether the pattern list occurs at the head of the haystack list. -/
def hasPre (pat hay : List Char) : Bool :=
  match pat, hay with
  | [], _ => true
  | _ :: _, [] => false
  | a :: as, b :: bs => a == b && hasPre as bs

/-- Whether the pattern list occurs contiguously anywhere in the haystack;
model of String.prototype.includes. -/
def hasSub (pat : List Char) : List Char → Bool
  | [] => pat.isEmpty
  | c :: rest => hasPre pat (c :: rest) || hasSub pat rest

/-- String-level containment test: strIncludes hay pat is hay.includes(pat). -/
def strIncludes (hay pat : String) : Bool := hasSub pat.toList hay.toList

/- ===== Data model (src/types/ocr.ts) ===== -/

/-- One subject line of the certificate: types/ocr.ts SubjectGrade. -/
structure SubjectGrade where
  name : String
  grade : String
  points : Option ℚ
  deriving DecidableEq

/-- Structured certificate fields extracted by OCR: types/ocr.ts StructuredData. -/
structure StructuredData where
  studentName : Option String
  indexNumber : Option String
  dateOfBirth : Option String
  gender : Option String
  schoolName : Option String
  schoolCode : Option String
  county : Option String
  yearOfExam : Option String
  certificateNumber : Option String
  subjects : Option (List SubjectGrade)
  meanGrade : Option String
  meanPoints : Option String
  totalPoints : Option ℚ
  deriving DecidableEq

/-- Detected anti-fraud markers: types/ocr.ts VerificationElements. -/
structure VerificationElements where
  hasWatermark : Option Bool
  hasQRCode : Option Bool
  hasOfficialStamp : Option Bool
  hasSignature : Option Bool
  stampText : Option String
  deriving DecidableEq

/-- Output of the OCR collaborator: types/ocr.ts OCRResult. -/
structure OCRResult where
  rawText : String
  structured : Option StructuredData
  verificationElements : Option VerificationElements
  confidence : ℚ
  notes : Option String
  deriving DecidableEq

/-- validation.ts ValidationResult. -/
structure ValidationResult where
  isValid : Bool
  errors : List String
  warnings : List String
  score : ℤ
  deriving DecidableEq

/-- validation.ts StudentValidation. -/
structure StudentValidation where
  nameValid : Bool
  indexNumberValid : Bool
  dobValid : Bool
  genderValid : Bool
  deriving DecidableEq

/-- validation.ts AcademicValidation. -/
structure AcademicValidation where
  gradesValid : Bool
  meanGradeValid : Bool
  pointsValid : Bool
  subjectsComplete : Bool
  deriving DecidableEq

/- ===== Field validators (validation.ts lines 25-89) ===== -/

/-- All characters of the list are ASCII digits. -/
def allDigits (l : List Char) : Bool := l.all Char.isDigit

/-- Test for the regex \d{8,12}/\d{4} anchored at both ends. -/
def matchesPat1 (s : String) : Bool :=
  match s.splitOn "/" with
  | [a, b] => allDigits a.toList && 8 ≤ a.length && a.length ≤ 12 && allDigits b.toList && b.length = 4
  | _ => false

/-- Test for the regex \d{2,4}/\d{3,5}/\d{4} anchored at both ends. -/
def matchesPat2 (s : String) : Bool :=
  match s.splitOn "/" with
  | [a, b, c] =>
    allDigits a.toList && 2 ≤ a.length && a.length ≤ 4 &&
    allDigits b.toList && 3 ≤ b.length && b.length ≤ 5 &&
    allDigits c.toList && c.length = 4
  | _ => false

/-- Test for the regex [A-Z]{1,3}\d{6,10} anchored at both ends. -/
def matchesPat3 (s : String) : Bool :=
  let (letters, rest) := s.toList.span Char.isUpper
  1 ≤ letters.length && letters.length ≤ 3 && allDigits rest && 6 ≤ rest.length && rest.length ≤ 10

/-- validation.ts validateIndexNumber: the trimmed-and-uppercased input must
match one of the three INDEX_NUMBER_PATTERNS. -/
def validateIndexNumber (indexNumber : String) : Bool :=
  if indexNumber = "" then false
  else
    let cleaned := strUpper indexNumber.trim
    matchesPat1 cleaned || matchesPat2 cleaned || matchesPat3 cleaned

/-- validation.ts VALID_GRADES. -/
def VALID_GRADES : List String :=
  ["A", "A-", "B+", "B", "B-", "C+", "C", "C-", "D+", "D", "D-", "E"]

/-- validation.ts REQUIRED_SUBJECTS. -/
def REQUIRED_SUBJECTS : List String := ["english", "kiswahili", "mathematics", "math"]

/-- validation.ts validateGrade. -/
def validateGrade (grade : String) : Bool :=
  if grade = "" then false
  else VALID_GRADES.contains (strUpper grade).trim

/-- Numeric value of an ASCII digit character. -/
def digitVal (c : Char) : ℤ := ((c.toNat - '0'.toNat : ℕ) : ℤ)

/-- Two-digit decimal number from its characters. -/
def twoDigit (a b : Char) : ℤ := digitVal a * 10 + digitVal b

/-- Four-digit decimal number from its characters. -/
def fourDigit (a b c d : Char) : ℤ :=
  digitVal a * 1000 + digitVal b * 100 + digitVal c * 10 + digitVal d

/-- Match of the regex (\d{2})/(\d{2})/(\d{4}), yielding (day, month, year). -/
def parseSlash (s : String) : Option (ℤ × ℤ × ℤ) :=
  match s.toList with
  | [d1, d2, '/', m1, m2, '/', y1, y2, y3, y4] =>
    if d1.isDigit && d2.isDigit && m1.isDigit && m2.isDigit &&
       y1.isDigit && y2.isDigit && y3.isDigit && y4.isDigit then
      some (twoDigit d1 d2, twoDigit m1 m2, fourDigit y1 y2 y3 y4)
    else none
  | _ => none

/-- Match of the regex (\d{4})-(\d{2})-(\d{2}), yielding (day, month, year). -/
def parseIso (s : String) : Option (ℤ × ℤ × ℤ) :=
  match s.toList with
  | [y1, y2, y3, y4, '-', m1, m2, '-', d1, d2] =>
    if y1.isDigit && y2.isDigit && y3.isDigit && y4.isDigit &&
       m1.isDigit && m2.isDigit && d1.isDigit && d2.isDigit then
      some (twoDigit d1 d2, twoDigit m1 m2, fourDigit y1 y2 y3 y4)
    else none
  | _ => none

/-- Match of the regex (\d{2})-(\d{2})-(\d{4}), yielding (day, month, year). -/
def parseDash (s : String) : Option (ℤ × ℤ × ℤ) :=
  match s.toList with
  | [d1, d2, '-', m1, m2, '-', y1, y2, y3, y4] =>
    if d1.isDigit && d2.isDigit && m1.isDigit && m2.isDigit &&
       y1.isDigit && y2.isDigit && y3.isDigit && y4.isDigit then
      some (twoDigit d1 d2, twoDigit m1 m2, fourDigit y1 y2 y3 y4)
    else none
  | _ => none

/-- Result of validateDateOfBirth: the valid flag and, when valid, the parsed
date as a day number. -/
structure DOBResult where
  valid : Bool
  date : Option ℤ
  deriving DecidableEq

/-- The age/future check of validation.ts lines 77-84 applied to one parsed
(day, month, year) triple: the JS date is built with rollover, the age is the
literal year difference, and the date must not lie in the future. -/
def dobCheck (now : CivilDate) : ℤ × ℤ × ℤ → Option ℤ
  | (d, m, y) =>
    let date := jsMakeDate y (m - 1) d
    let age := now.year - y
    if 15 ≤ age ∧ age ≤ 40 ∧ date ≤ civilDays now then some date else none

/-- One iteration of the pattern loop of validateDateOfBirth: if the pattern
matched, run the check and return valid on success, otherwise fall through. -/
def dobStep (now : CivilDate) (p : Option (ℤ × ℤ × ℤ)) (next : DOBResult) : DOBResult :=
  match p with
  | some t =>
    match dobCheck now t with
    | some dt => ⟨true, some dt⟩
    | none => next
  | none => next

/-- validation.ts validateDateOfBirth: tries DD/MM/YYYY, YYYY-MM-DD and
DD-MM-YYYY in order; valid iff a matching format yields a date that is not in
the future with a literal-year age in 15..40. -/
def validateDateOfBirth (dob : String) (now : CivilDate) : DOBResult :=
  if dob = "" then ⟨false, none⟩
  else
    dobStep now (parseSlash dob)
      (dobStep now (parseIso dob)
        (dobStep now (parseDash dob) ⟨false, none⟩))

/- ===== Section validators (validation.ts lines 91-167) ===== -/

/-- validation.ts validateStudentData. -/
def validateStudentData (now : CivilDate) (data : Option StructuredData) : StudentValidation :=
  match data with
  | none => ⟨false, false, false, false⟩
  | some data =>
    { nameValid := decide (3 ≤ (data.studentName.getD "").length)
      indexNumberValid := validateIndexNumber (data.indexNumber.getD "")
      dobValid := (validateDateOfBirth (data.dateOfBirth.getD "") now).valid
      genderValid := ["male", "female", "m", "f"].contains (strLower (data.gender.getD "")) }

/-- validation.ts validateAcademicData. -/
def validateAcademicData (data : Option StructuredData) : AcademicValidation :=
  match data with
  | none => ⟨false, false, false, false⟩
  | some data =>
    let subjects := data.subjects.getD []
    let allGradesValid := subjects.all (fun s => validateGrade s.grade)
    let meanGradeValid := validateGrade (data.meanGrade.getD "")
    let pointsValid :=
      if subjects.length > 0 ∧ data.totalPoints.isSome then
        decide (|subjects.foldl (fun sum s => sum + s.points.getD 0) 0 - data.totalPoints.getD 0| ≤ 1)
      else true
    let subjectNames := subjects.map (fun s => strLower s.name)
    let hasRequiredSubjects :=
      REQUIRED_SUBJECTS.any (fun req => subjectNames.any (fun name => strIncludes name req))
    { gradesValid := allGradesValid
      meanGradeValid := meanGradeValid
      pointsValid := pointsValid
      subjectsComplete := decide (7 ≤ subjects.length) && hasRequiredSubjects }

/-- Output of validateVerificationElements. -/
structure ElementsValidation where
  hasSecurityFeatures : Bool
  missingElements : List String
  presentElements : List String
  deriving DecidableEq

/-- validation.ts validateVerificationElements. -/
def validateVerificationElements (elements : Option VerificationElements) : ElementsValidation :=
  match elements with
  | none =>
    { hasSecurityFeatures := false
      missingElements := ["watermark", "QR code", "official stamp", "signature"]
      presentElements := [] }
  | some elements =>
    let present :=
      (if elements.hasWatermark.getD false then ["watermark"] else [])
      ++ (if elements.hasQRCode.getD false then ["QR code"] else [])
      ++ (if elements.hasOfficialStamp.getD false then ["official stamp"] else [])
      ++ (if elements.hasSignature.getD false then ["signature"] else [])
    let missing :=
      (if elements.hasWatermark.getD false then [] else ["watermark"])
      ++ (if elements.hasQRCode.getD false then [] else ["QR code"])
      ++ (if elements.hasOfficialStamp.getD false then [] else ["official stamp"])
      ++ (if elements.hasSignature.getD false then [] else ["signature"])
    { hasSecurityFeatures := decide (2 ≤ present.length)
      missingElements := missing
      presentElements := present }

/- ===== Document validation aggregator (validation.ts lines 169-238) ===== -/

/-- Comma-space join, model of Array.prototype.join(", "). -/
def joinComma (l : List String) : String := String.intercalate ", " l

/-- validation.ts validateOCRResult, translated check by check: each of the
three mutable variables (errors, warnings, score) receives, in source order,
exactly the conditional updates the source applies to it. -/
def validateOCRResult (now : CivilDate) (result : Option OCRResult) : ValidationResult :=
  match result with
  | none =>
    { isValid := false, errors := ["No OCR data available"], warnings := [], score := 0 }
  | some result =>
    let studentVal := validateStudentData now result.structured
    let academicVal := validateAcademicData result.structured
    let verifyVal := validateVerificationElements result.verificationElements
    let errors0 : List String := []
    let errors1 :=
      if result.confidence < 1/2 then
        errors0 ++ ["OCR confidence too low - document may be unreadable"]
      else errors0
    let errors2 :=
      if !studentVal.nameValid then errors1 ++ ["Student name not found or invalid"] else errors1
    let errors3 :=
      if !studentVal.indexNumberValid then
        errors2 ++ ["Index number format invalid or missing"]
      else errors2
    let errors4 :=
      if !verifyVal.hasSecurityFeatures then
        errors3 ++ ["Missing security features: " ++ joinComma verifyVal.missingElements]
      else errors3
    let warnings0 : List String := []
    let warnings1 :=
      if result.confidence < 1/2 then warnings0
      else if result.confidence < 7/10 then warnings0 ++ ["OCR confidence below optimal level"]
      else warnings0
    let warnings2 :=
      if !studentVal.dobValid then
        warnings1 ++ ["Date of birth not detected or invalid format"]
      else warnings1
    let warnings3 :=
      if !academicVal.meanGradeValid then
        warnings2 ++ ["Mean grade not detected or invalid"]
      else warnings2
    let warnings4 :=
      if !academicVal.subjectsComplete then
        warnings3 ++ ["Subject list may be incomplete (expected min. 7 subjects)"]
      else warnings3
    let warnings5 :=
      if !academicVal.pointsValid then
        warnings4 ++ ["Points calculation inconsistency detected"]
      else warnings4
    let warnings6 :=
      if !verifyVal.hasSecurityFeatures then warnings5
      else if verifyVal.missingElements.length > 2 then
        warnings5 ++ ["Some security features not detected: " ++ joinComma verifyVal.missingElements]
      else warnings5
    let score0 : ℤ := 100
    let score1 :=
      if result.confidence < 1/2 then score0 - 30
      else if result.confidence < 7/10 then score0 - 15
      else score0
    let score2 := if !studentVal.nameValid then score1 - 15 else score1
    let score3 := if !studentVal.indexNumberValid then score2 - 10 else score2
    let score4 := if !studentVal.dobValid then score3 - 5 else score3
    let score5 := if !academicVal.meanGradeValid then score4 - 10 else score4
    let score6 := if !academicVal.subjectsComplete then score5 - 5 else score5
    let score7 := if !academicVal.pointsValid then score6 - 5 else score6
    let score8 :=
      if !verifyVal.hasSecurityFeatures then score7 - 20
      else if verifyVal.missingElements.length > 2 then score7 - 10
      else score7
    { isValid := errors4.isEmpty, errors := errors4, warnings := warnings6, score := max 0 score8 }

/- ===== Risk scoring engine (validation.ts lines 240-316) ===== -/

/-- Verdict vocabulary emitted by the scoring engine. -/
inductive Verdict where
  | verified
  | flagged
  | rejected
  deriving DecidableEq

/-- Status tag of a risk factor. -/
inductive FactorStatus where
  | good
  | warning
  | bad
  deriving DecidableEq

/-- One contributing factor of the risk assessment. -/
structure RiskFactor where
  name : String
  impact : ℚ
  status : FactorStatus
  deriving DecidableEq

/-- Result of calculateOverallRiskScore. -/
structure RiskAssessment where
  riskScore : ℤ
  verdict : Verdict
  factors : List RiskFactor
  deriving DecidableEq

/-- Status tagging used for every factor: good below 20, warning below 40,
bad otherwise. -/
def statusOf (risk : ℚ) : FactorStatus :=
  if risk < 20 then .good else if risk < 40 then .warning else .bad

/-- The totalRisk accumulator of calculateOverallRiskScore: the document
sub-risks weighted 0.30 / 0.25 / 0.20 when the OCR result is present, a flat
50 when it is absent, plus 0.15- and 0.10-weighted contributions for the
biometric and liveness scores when provided. -/
def totalRiskOf (now : CivilDate) (ocrResult : Option OCRResult)
    (biometricScore livenessScore : Option ℚ) : ℚ :=
  (match ocrResult with
   | some r =>
     (100 - r.confidence * 100) * (3/10)
     + ((validateVerificationElements r.verificationElements).missingElements.length * 15) * (1/4)
     + ((100 : ℚ) - (validateOCRResult now (some r)).score) * (1/5)
   | none => 50)
  + (match biometricScore with
     | some b => (100 - b) * (3/20)
     | none => 0)
  + (match livenessScore with
     | some l => (100 - l) * (1/10)
     | none => 0)

/-- The factors list built by calculateOverallRiskScore, in source push order. -/
def factorsOf (now : CivilDate) (ocrResult : Option OCRResult)
    (biometricScore livenessScore : Option ℚ) : List RiskFactor :=
  (match ocrResult with
   | some r =>
     let ocrRisk := 100 - r.confidence * 100
     let securityRisk : ℚ :=
       (validateVerificationElements r.verificationElements).missingElements.length * 15
     let dataRisk : ℚ := (100 : ℚ) - (validateOCRResult now (some r)).score
     [⟨"OCR Confidence", ocrRisk, statusOf ocrRisk⟩,
      ⟨"Security Elements", securityRisk, statusOf securityRisk⟩,
      ⟨"Data Completeness", dataRisk, statusOf dataRisk⟩]
   | none => [⟨"OCR Data", 100, .bad⟩])
  ++ (match biometricScore with
      | some b => [⟨"Biometric Match", 100 - b, statusOf (100 - b)⟩]
      | none => [])
  ++ (match livenessScore with
      | some l => [⟨"Liveness Check", 100 - l, statusOf (100 - l)⟩]
      | none => [])

/-- validation.ts calculateOverallRiskScore: clamped rounded risk score,
threshold verdict, and the factor breakdown. -/
def calculateOverallRiskScore (now : CivilDate) (ocrResult : Option OCRResult)
    (biometricScore livenessScore : Option ℚ) : RiskAssessment :=
  let totalRisk := totalRiskOf now ocrResult biometricScore livenessScore
  let riskScore := min 100 (max 0 (jsRound totalRisk))
  { riskScore := riskScore
    verdict :=
      if riskScore ≤ 25 then .verified
      else if riskScore ≤ 55 then .flagged
      else .rejected
    factors := factorsOf now ocrResult biometricScore livenessScore }

/- ===== Deepfake heuristic (DeepfakeWarning.tsx lines 28-127) ===== -/

/-- Severity of a deepfake indicator. -/
inductive Severity where
  | low
  | medium
  | high
  deriving DecidableEq

/-- One detected deepfake indicator. -/
structure Indicator where
  name : String
  detected : Bool
  severity : Severity
  description : String
  deriving DecidableEq

/-- Recommendation of the deepfake analysis. -/
inductive Recommendation where
  | safe
  | review
  | reject
  deriving DecidableEq

/-- Per-indicator liveness booleans reported by the biometric collaborator;
each field is optional in the component props. -/
structure LivenessIndicators where
  naturalLighting : Option Bool
  depthCues : Option Bool
  skinTexture : Option Bool
  eyeReflection : Option Bool
  deriving DecidableEq

/-- Props of the DeepfakeWarning component. -/
structure DeepfakeProps where
  livenessScore : ℚ
  livenessIndicators : Option LivenessIndicators
  matchScore : Option ℚ
  concerns : Option (List String)
  deriving DecidableEq

/-- Result of analyzeDeepfakeRisk. -/
structure DeepfakeAnalysis where
  isLikelyDeepfake : Bool
  confidence : ℚ
  indicators : List Indicator
  recommendation : Recommendation
  deriving DecidableEq

/-- Indicators contributed by a single concern string: AI Detection Alert for
deepfake/synthetic mentions, else Image Quality Issue for quality/blur. -/
def concernIndicator (concern : String) : List Indicator :=
  let lowerConcern := strLower concern
  if strIncludes lowerConcern "deepfake" || strIncludes lowerConcern "synthetic" then
    [⟨"AI Detection Alert", true, .high, concern⟩]
  else if strIncludes lowerConcern "quality" || strIncludes lowerConcern "blur" then
    [⟨"Image Quality Issue", true, .low, concern⟩]
  else []

/-- Sequential forEach over the concerns list. -/
def concernIndicators : List String → List Indicator
  | [] => []
  | c :: cs => concernIndicator c ++ concernIndicators cs

/-- DeepfakeWarning.tsx analyzeDeepfakeRisk, with the indicator pushes kept in
source order. -/
def analyzeDeepfakeRisk (props : DeepfakeProps) : DeepfakeAnalysis :=
  let indicators : List Indicator :=
    (match props.livenessIndicators with
     | none => []
     | some li =>
       (if !(li.naturalLighting.getD false) then
          [⟨"Unnatural Lighting", true, .medium,
            "Lighting patterns inconsistent with natural environment"⟩]
        else [])
       ++ (if !(li.depthCues.getD false) then
             [⟨"Missing Depth Cues", true, .high,
               "Face appears flat, lacking 3D depth information"⟩]
           else [])
       ++ (if !(li.skinTexture.getD false) then
             [⟨"Artificial Skin Texture", true, .high,
               "Skin texture appears synthetic or overly smooth"⟩]
           else [])
       ++ (if !(li.eyeReflection.getD false) then
             [⟨"Eye Reflection Anomaly", true, .medium,
               "Eye reflections missing or inconsistent"⟩]
           else []))
    ++ (if props.livenessScore < 60 then
          [⟨"Low Liveness Score", true, .high,
            "Face does not appear to be from a live person"⟩]
        else if props.livenessScore < 75 then
          [⟨"Moderate Liveness Concern", true, .medium,
            "Some liveness checks did not pass confidently"⟩]
        else [])
    ++ (match props.concerns with
        | none => []
        | some cs => concernIndicators cs)
  let highSeverityCount := (indicators.filter (fun i => i.severity == Severity.high)).length
  let mediumSeverityCount := (indicators.filter (fun i => i.severity == Severity.medium)).length
  let deepfakeConfidence : ℚ :=
    min 100 (highSeverityCount * 30 + mediumSeverityCount * 15 + (100 - props.livenessScore))
  let isLikelyDeepfake := decide (deepfakeConfidence > 50)
  let recommendation : Recommendation :=
    if deepfakeConfidence > 70 then .reject
    else if deepfakeConfidence > 40 then .review
    else .safe
  { isLikelyDeepfake := isLikelyDeepfake
    confidence := deepfakeConfidence
    indicators := indicators
    recommendation := recommendation }

/- ===== Specification-side reformulations ===== -/

/-- Deduction charged for the OCR confidence check (spec 4.4 step 1). -/
def confDeduct (c : ℚ) : ℤ := if c < 1/2 then 30 else if c < 7/10 then 15 else 0

/-- Deduction charged for the security-elements check (spec 4.4 step 4). -/
def secDeduct (e : Option VerificationElements) : ℤ :=
  let v := validateVerificationElements e
  if !v.hasSecurityFeatures then 20 else if v.missingElements.length > 2 then 10 else 0

/-- Total deduction of the document validation aggregator, as the sum of the
independent per-check deductions of spec 4.4. -/
def totalDeduct (now : CivilDate) (r : OCRResult) : ℤ :=
  confDeduct r.confidence
  + (if !(validateStudentData now r.structured).nameValid then 15 else 0)
  + (if !(validateStudentData now r.structured).indexNumberValid then 10 else 0)
  + (if !(validateStudentData now r.structured).dobValid then 5 else 0)
  + (if !(validateAcademicData r.structured).meanGradeValid then 10 else 0)
  + (if !(validateAcademicData r.structured).subjectsComplete then 5 else 0)
  + (if !(validateAcademicData r.structured).pointsValid then 5 else 0)
  + secDeduct r.verificationElements

/-- Error messages of the aggregator as one ordered concatenation of
conditional singletons (spec 4.4 fixed check order). -/
def specErrors (now : CivilDate) (r : OCRResult) : List String :=
  (if r.confidence < 1/2 then ["OCR confidence too low - document may be unreadable"] else [])
  ++ (if !(validateStudentData now r.structured).nameValid then
        ["Student name not found or invalid"] else [])
  ++ (if !(validateStudentData now r.structured).indexNumberValid then
        ["Index number format invalid or missing"] else [])
  ++ (if !(validateVerificationElements r.verificationElements).hasSecurityFeatures then
        ["Missing security features: "
          ++ joinComma (validateVerificationElements r.verificationElements).missingElements]
      else [])

/-- Warning messages of the aggregator as one ordered concatenation of
conditional singletons (spec 4.4 fixed check order). -/
def specWarnings (now : CivilDate) (r : OCRResult) : List String :=
  (if r.confidence < 1/2 then []
   else if r.confidence < 7/10 then ["OCR confidence below optimal level"] else [])
  ++ (if !(validateStudentData now r.structured).dobValid then
        ["Date of birth not detected or invalid format"] else [])
  ++ (if !(validateAcademicData r.structured).meanGradeValid then
        ["Mean grade not detected or invalid"] else [])
  ++ (if !(validateAcademicData r.structured).subjectsComplete then
        ["Subject list may be incomplete (expected min. 7 subjects)"] else [])
  ++ (if !(validateAcademicData r.structured).pointsValid then
        ["Points calculation inconsistency detected"] else [])
  ++ (if !(validateVerificationElements r.verificationElements).hasSecurityFeatures then []
      else if (validateVerificationElements r.verificationElements).missingElements.length > 2 then
        ["Some security features not detected: "
          ++ joinComma (validateVerificationElements r.verificationElements).missingElements]
      else [])

/-- The document validation aggregator in specification form: independent
additive deductions from a starting score of 100, clamped at 0, with isValid
exactly when no error was recorded. -/
def specValidateDoc (now : CivilDate) (r : OCRResult) : ValidationResult :=
  { isValid := (specErrors now r).isEmpty
    errors := specErrors now r
    warnings := specWarnings now r
    score := max 0 (100 - totalDeduct now r) }

/-- The totalRisk accumulator in the specification's weighted form: the three
document sub-risks with weights 0.30, 0.25 (of 15 per missing element) and
0.20 when the document is present, the flat 50 when it is absent, and the
0.15/0.10-weighted optional contributions exactly when provided. -/
def specTotalRisk (now : CivilDate) (ocrResult : Option OCRResult)
    (biometricScore livenessScore : Option ℚ) : ℚ :=
  (match ocrResult with
   | some r =>
     (3/10) * (100 - r.confidence * 100)
     + (1/4) * (15 * ((validateVerificationElements r.verificationElements).missingElements.length : ℚ))
     + (1/5) * (100 - ((validateOCRResult now (some r)).score : ℚ))
   | none => 50)
  + (match biometricScore with
     | some b => (3/20) * (100 - b)
     | none => 0)
  + (match livenessScore with
     | some l => (1/10) * (100 - l)
     | none => 0)

/-- The factor appended for a provided biometric score. -/
def bioFactors (biometricScore : Option ℚ) : List RiskFactor :=
  match biometricScore with
  | some b => [⟨"Biometric Match", 100 - b, statusOf (100 - b)⟩]
  | none => []

/-- The factor appended for a provided liveness score. -/
def livFactors (livenessScore : Option ℚ) : List RiskFactor :=
  match livenessScore with
  | some l => [⟨"Liveness Check", 100 - l, statusOf (100 - l)⟩]
  | none => []

/-- A fixed sample clock reading used in concrete evaluations. -/
def sampleNow : CivilDate := ⟨2026, 10, 11⟩

/-- Security markers with all four elements detected. -/
def perfectElems : VerificationElements := ⟨some true, some true, some true, some true, none⟩

/-- A document with full OCR confidence and all security markers but no
structured data. -/
def docNoStruct : OCRResult := ⟨"", none, some perfectElems, 1, none⟩

/-- Replaces the OCR confidence of a document. -/
def withConfidence (r : OCRResult) (c : ℚ) : OCRResult := { r with confidence := c }

/-- Removes the student name from the structured data of a document. -/
def removeStudentName (r : OCRResult) : OCRResult :=
  { r with structured := r.structured.map (fun d => { d with studentName := none }) }

/-- One of the four security markers. -/
inductive Marker where
  | watermark
  | qrcode
  | stamp
  | signature
  deriving DecidableEq

/-- Marks the given security marker as not detected. -/
def clearMarker : Marker → VerificationElements → VerificationElements
  | .watermark, e => { e with hasWatermark := some false }
  | .qrcode, e => { e with hasQRCode := some false }
  | .stamp, e => { e with hasOfficialStamp := some false }
  | .signature, e => { e with hasSignature := some false }

/-- Removes one security marker from a document. -/
def removeMarker (mk : Marker) (r : OCRResult) : OCRResult :=
  { r with verificationElements := r.verificationElements.map (clearMarker mk) }

/-- validateOCRResult with the dead secondary security branch (the
partial-security warning and its -10 deduction) removed. -/
def validateOCRResultNoSecWarn (now : CivilDate) (result : Option OCRResult) : ValidationResult :=
  match result with
  | none =>
    { isValid := false, errors := ["No OCR data available"], warnings := [], score := 0 }
  | some result =>
    let studentVal := validateStudentData now result.structured
    let academicVal := validateAcademicData result.structured
    let verifyVal := validateVerificationElements result.verificationElements
    let errors0 : List String := []
    let errors1 :=
      if result.confidence < 1/2 then
        errors0 ++ ["OCR confidence too low - document may be unreadable"]
      else errors0
    let errors2 :=
      if !studentVal.nameValid then errors1 ++ ["Student name not found or invalid"] else errors1
    let errors3 :=
      if !studentVal.indexNumberValid then
        errors2 ++ ["Index number format invalid or missing"]
      else errors2
    let errors4 :=
      if !verifyVal.hasSecurityFeatures then
        errors3 ++ ["Missing security features: " ++ joinComma verifyVal.missingElements]
      else errors3
    let warnings0 : List String := []
    let warnings1 :=
      if result.confidence < 1/2 then warnings0
      else if result.confidence < 7/10 then warnings0 ++ ["OCR confidence below optimal level"]
      else warnings0
    let warnings2 :=
      if !studentVal.dobValid then
        warnings1 ++ ["Date of birth not detected or invalid format"]
      else warnings1
    let warnings3 :=
      if !academicVal.meanGradeValid then
        warnings2 ++ ["Mean grade not detected or invalid"]
      else warnings2
    let warnings4 :=
      if !academicVal.subjectsComplete then
        warnings3 ++ ["Subject list may be incomplete (expected min. 7 subjects)"]
      else warnings3
    let warnings5 :=
      if !academicVal.pointsValid then
        warnings4 ++ ["Points calculation inconsistency detected"]
      else warnings4
    let score0 : ℤ := 100
    let score1 :=
      if result.confidence < 1/2 then score0 - 30
      else if result.confidence < 7/10 then score0 - 15
      else score0
    let score2 := if !studentVal.nameValid then score1 - 15 else score1
    let score3 := if !studentVal.indexNumberValid then score2 - 10 else score2
    let score4 := if !studentVal.dobValid then score3 - 5 else score3
    let score5 := if !academicVal.meanGradeValid then score4 - 10 else score4
    let score6 := if !academicVal.subjectsComplete then score5 - 5 else score5
    let score7 := if !academicVal.pointsValid then score6 - 5 else score6
    let score8 := if !verifyVal.hasSecurityFeatures then score7 - 20 else score7
    { isValid := errors4.isEmpty, errors := errors4, warnings := warnings5, score := max 0 score8 }

/-- Pointwise agreement of two subject lists on everything except the grade
strings: same length, same names, same points. -/
def subjectsEqExceptGrades : List SubjectGrade → List SubjectGrade → Bool
  | [], [] => true
  | s :: ss, t :: ts => s.name == t.name && s.points == t.points && subjectsEqExceptGrades ss ts
  | _, _ => false

/-- Agreement of two optional structured-data records on every field except
the subjects' grade strings. -/
def structuredEqExceptGrades : Option StructuredData → Option StructuredData → Bool
  | none, none => true
  | some a, some b =>
    a.studentName == b.studentName && a.indexNumber == b.indexNumber &&
    a.dateOfBirth == b.dateOfBirth && a.gender == b.gender &&
    a.schoolName == b.schoolName && a.schoolCode == b.schoolCode &&
    a.county == b.county && a.yearOfExam == b.yearOfExam &&
    a.certificateNumber == b.certificateNumber &&
    a.meanGrade == b.meanGrade && a.meanPoints == b.meanPoints &&
    a.totalPoints == b.totalPoints &&
    (match a.subjects, b.subjects with
     | none, none => true
     | some sa, some sb => subjectsEqExceptGrades sa sb
     | _, _ => false)
  | _, _ => false

/-- Agreement of two OCR results on everything except the grade strings of
their subjects. -/
def eqExceptGrades (a b : OCRResult) : Bool :=
  a.rawText == b.rawText && a.confidence == b.confidence &&
  a.verificationElements == b.verificationElements && a.notes == b.notes &&
  structuredEqExceptGrades a.structured b.structured

/-- Structured data mentioning only one subject with an A grade. -/
def structSubjA : StructuredData :=
  ⟨none, none, none, none, none, none, none, none, none,
   some [⟨"mathematics", "A", some 12⟩], none, none, none⟩

/-- Structured data mentioning only one subject with an E grade. -/
def structSubjE : StructuredData :=
  ⟨none, none, none, none, none, none, none, none, none,
   some [⟨"mathematics", "E", some 12⟩], none, none, none⟩

/-- A document whose single subject carries an A grade. -/
def docSubjA : OCRResult := ⟨"", some structSubjA, none, 1, none⟩

/-- A document identical to docSubjA except for the subject grade. -/
def docSubjE : OCRResult := ⟨"", some structSubjE, none, 1, none⟩

/-- The first date pattern (in source order) that matches the input. -/
def firstParse (s : String) : Option (ℤ × ℤ × ℤ) :=
  match parseSlash s with
  | some t => some t
  | none =>
    match parseIso s with
    | some t => some t
    | none => parseDash s

/-- Whether a concern string mentions a deepfake (case-insensitively contains
deepfake or synthetic). -/
def isDeepfakeConcern (c : String) : Bool :=
  strIncludes (strLower c) "deepfake" || strIncludes (strLower c) "synthetic"

/-- Whether a concern string mentions a quality issue without mentioning a
deepfake. -/
def isQualityConcern (c : String) : Bool :=
  !isDeepfakeConcern c && (strIncludes (strLower c) "quality" || strIncludes (strLower c) "blur")

/-- Number of high-severity indicators contributed by the inputs, counted
directly from the inputs: missing depth cues and artificial skin texture when
the respective liveness indicator is not set to true, a liveness score below
60, and each deepfake-mentioning concern. -/
def specHighCount (p : DeepfakeProps) : ℕ :=
  (match p.livenessIndicators with
   | none => 0
   | some li =>
     (if li.depthCues ≠ some true then 1 else 0) + (if li.skinTexture ≠ some true then 1 else 0))
  + (if p.livenessScore < 60 then 1 else 0)
  + (match p.concerns with
     | none => 0
     | some cs => cs.countP isDeepfakeConcern)

/-- Number of medium-severity indicators contributed by the inputs: unnatural
lighting and eye-reflection anomaly when the respective liveness indicator is
not set to true, and a liveness score in [60, 75). -/
def specMedCount (p : DeepfakeProps) : ℕ :=
  (match p.livenessIndicators with
   | none => 0
   | some li =>
     (if li.naturalLighting ≠ some true then 1 else 0)
     + (if li.eyeReflection ≠ some true then 1 else 0))
  + (if p.livenessScore < 60 then 0 else if p.livenessScore < 75 then 1 else 0)

/-- The indicator list of the deepfake heuristic, described rule by rule from
the inputs: one fixed indicator per liveness indicator not set to true, the
liveness-score indicator, and one indicator per classified concern. -/
def specIndicators (p : DeepfakeProps) : List Indicator :=
  (match p.livenessIndicators with
   | none => []
   | some li =>
     (if li.naturalLighting ≠ some true then
        [⟨"Unnatural Lighting", true, .medium,
          "Lighting patterns inconsistent with natural environment"⟩]
      else [])
     ++ (if li.depthCues ≠ some true then
           [⟨"Missing Depth Cues", true, .high,
             "Face appears flat, lacking 3D depth information"⟩]
         else [])
     ++ (if li.skinTexture ≠ some true then
           [⟨"Artificial Skin Texture", true, .high,
             "Skin texture appears synthetic or overly smooth"⟩]
         else [])
     ++ (if li.eyeReflection ≠ some true then
           [⟨"Eye Reflection Anomaly", true, .medium,
             "Eye reflections missing or inconsistent"⟩]
         else []))
  ++ (if p.livenessScore < 60 then
        [⟨"Low Liveness Score", true, .high,
          "Face does not appear to be from a live person"⟩]
      else if p.livenessScore < 75 then
        [⟨"Moderate Liveness Concern", true, .medium,
          "Some liveness checks did not pass confidently"⟩]
      else [])
  ++ (match p.concerns with
      | none => []
      | some cs =>
        cs.foldr (fun c acc =>
          (if isDeepfakeConcern c then [⟨"AI Detection Alert", true, .high, c⟩]
           else if isQualityConcern c then [⟨"Image Quality Issue", true, .low, c⟩]
           else []) ++ acc) [])

/-- Deepfake props with the liveness record present, three indicators set to
true and the lighting indicator left unspecified. -/
def propsUnspecLighting : DeepfakeProps :=
  ⟨100, some ⟨none, some true, some true, some true⟩, none, none⟩

/-- Deepfake props with a perfect liveness score, all indicators true and no
concerns. -/
def propsAllGood : DeepfakeProps :=
  ⟨100, some ⟨some true, some true, some true, some true⟩, none, some []⟩

/-- A conditional in-place append is an append of a conditional block. -/
theorem condAppendThen (c : Prop) [Decidable c] (w m : List String) :
    (if c then w ++ m else w) = w ++ (if c then m else []) := by
  split_ifs <;> simp

/-- A conditional whose branches append different blocks to the same list is
an append of a conditional block. -/
theorem condAppendElse (c : Prop) [Decidable c] (w m : List String) :
    (if c then w else w ++ m) = w ++ (if c then [] else m) := by
  split_ifs <;> simp

/-- A conditional in-place deduction is a subtraction of a conditional amount. -/
theorem condSubThen (c : Prop) [Decidable c] (s k : ℤ) :
    (if c then s - k else s) = s - (if c then k else 0) := by
  split_ifs <;> simp

/-- A conditional whose branches subtract different amounts from the same base
is a subtraction of a conditional amount. -/
theorem condSubElse (c : Prop) [Decidable c] (s k x : ℤ) :
    (if c then s - k else s - x) = s - (if c then k else x) := by
  split_ifs <;> rfl

/-- The errors component of the aggregator agrees with its concatenation form. -/
theorem validateOCRResult_errors_eq (now : CivilDate) (r : OCRResult) :
    (validateOCRResult now (some r)).errors = specErrors now r := by
  simp only [validateOCRResult, specErrors, condAppendThen, condAppendElse, List.nil_append]

/-- The warnings component of the aggregator agrees with its concatenation form. -/
theorem validateOCRResult_warnings_eq (now : CivilDate) (r : OCRResult) :
    (validateOCRResult now (some r)).warnings = specWarnings now r := by
  simp only [validateOCRResult, specWarnings, condAppendThen, condAppendElse, List.nil_append]

/-- A conditional in-place addition is an addition of a conditional amount. -/
theorem condAddThen (c : Prop) [Decidable c] (s k : ℤ) :
    (if c then s + k else s) = s + (if c then k else 0) := by
  split_ifs <;> simp

/-- A conditional whose branches add different amounts to the same base is an
addition of a conditional amount. -/
theorem condAddElse (c : Prop) [Decidable c] (s k x : ℤ) :
    (if c then s + k else s + x) = s + (if c then k else x) := by
  split_ifs <;> rfl

/-- The score component of the aggregator agrees with its additive-deduction
form. -/
theorem validateOCRResult_score_eq (now : CivilDate) (r : OCRResult) :
    (validateOCRResult now (some r)).score = max 0 (100 - totalDeduct now r) := by
  simp only [validateOCRResult, totalDeduct, confDeduct, secDeduct, condSubThen, condSubElse,
    sub_sub, condAddThen, condAddElse]

/-- The isValid component of the aggregator is the emptiness of its errors. -/
theorem validateOCRResult_isValid_eq (now : CivilDate) (r : OCRResult) :
    (validateOCRResult now (some r)).isValid = (specErrors now r).isEmpty := by
  simp only [validateOCRResult, specErrors, condAppendThen, condAppendElse, List.nil_append]

/-- The check-by-check translation of validateOCRResult agrees with its
specification form on every present document. -/
theorem validateOCRResult_some_eq (now : CivilDate) (r : OCRResult) :
    validateOCRResult now (some r) = specValidateDoc now r := by
  have he := validateOCRResult_errors_eq now r
  have hw := validateOCRResult_warnings_eq now r
  have hs := validateOCRResult_score_eq now r
  have hv := validateOCRResult_isValid_eq now r
  cases hcalc : validateOCRResult now (some r)
  rw [hcalc] at he hw hs hv
  simp only [specValidateDoc]
  simp_all

/-- jsRound is monotone. -/
theorem jsRound_mono {a b : ℚ} (h : a ≤ b) : jsRound a ≤ jsRound b :=
  Int.floor_le_floor (by linarith)

/-- jsRound fixes integer inputs. -/
theorem jsRound_intCast (n : ℤ) : jsRound (n : ℚ) = n := by
  unfold jsRound
  rw [Int.floor_eq_iff]
  constructor
  · linarith
  · norm_num

/-- jsRound of zero. -/
theorem jsRound_zero : jsRound 0 = 0 := by
  have h := jsRound_intCast 0
  simpa using h

/-- jsRound of one hundred. -/
theorem jsRound_hundred : jsRound 100 = 100 := by
  have h := jsRound_intCast 100
  simpa using h

/-- Clamping after rounding agrees with rounding after clamping: the source
computes min(100, max(0, round(t))) and the specification round(clamp(t)). -/
theorem jsRound_clamp (q : ℚ) : min 100 (max 0 (jsRound q)) = jsRound (min 100 (max 0 q)) := by
  rcases le_total q 0 with h | h
  · have h1 : max 0 q = 0 := max_eq_left h
    have h2 : jsRound q ≤ 0 := by
      have := jsRound_mono h
      rwa [jsRound_zero] at this
    have h3 : min 100 (max 0 q) = 0 := by
      rw [h1]
      norm_num
    rw [h3, jsRound_zero]
    omega
  · rcases le_total q 100 with hq | hq
    · have h1 : max 0 q = q := max_eq_right h
      have h2 : min 100 q = q := min_eq_right hq
      have hge : 0 ≤ jsRound q := by
        have := jsRound_mono h
        rwa [jsRound_zero] at this
      have hle : jsRound q ≤ 100 := by
        have := jsRound_mono hq
        rwa [jsRound_hundred] at this
      rw [h1, h2]
      omega
    · have h1 : max 0 q = q := max_eq_right (by linarith)
      have h2 : min 100 q = 100 := min_eq_left hq
      have hge : 100 ≤ jsRound q := by
        have := jsRound_mono hq
        rwa [jsRound_hundred] at this
      rw [h1, h2, jsRound_hundred]
      omega

/-- The source accumulation of totalRisk agrees with its specification form. -/
theorem totalRiskOf_eq_spec (now : CivilDate) (doc : Option OCRResult) (b l : Option ℚ) :
    totalRiskOf now doc b l = specTotalRisk now doc b l := by
  cases doc <;> cases b <;> cases l <;> simp only [totalRiskOf, specTotalRisk] <;> ring

/-- The factor list of an absent document is the flat OCR Data factor
followed by the optional factors. -/
theorem factorsOf_none (now : CivilDate) (b l : Option ℚ) :
    factorsOf now none b l = ⟨"OCR Data", 100, .bad⟩ :: (bioFactors b ++ livFactors l) := by
  cases b <;> cases l <;> rfl

/-- The risk score in terms of the totalRisk accumulator. -/
theorem riskScore_eq (now : CivilDate) (doc : Option OCRResult) (b l : Option ℚ) :
    (calculateOverallRiskScore now doc b l).riskScore
      = min 100 (max 0 (jsRound (totalRiskOf now doc b l))) := rfl

/-- The verdict in terms of the risk score. -/
theorem verdict_eq (now : CivilDate) (doc : Option OCRResult) (b l : Option ℚ) :
    (calculateOverallRiskScore now doc b l).verdict
      = (if (calculateOverallRiskScore now doc b l).riskScore ≤ 25 then .verified
         else if (calculateOverallRiskScore now doc b l).riskScore ≤ 55 then .flagged
         else .rejected) := rfl

/-- Sufficient security features force at most two missing elements. -/
theorem secure_missing_le (e : Option VerificationElements) :
    (validateVerificationElements e).hasSecurityFeatures = true →
    (validateVerificationElements e).missingElements.length ≤ 2 := by
  cases e with
  | none =>
    intro h
    simp [validateVerificationElements] at h
  | some el =>
    cases hw : el.hasWatermark.getD false <;> cases hq : el.hasQRCode.getD false <;>
      cases hs : el.hasOfficialStamp.getD false <;> cases hg : el.hasSignature.getD false <;>
      simp_all [validateVerificationElements]

/-- The total deduction for docNoStruct is exactly 50 under any clock. -/
theorem docNoStruct_deduct (now : CivilDate) : totalDeduct now docNoStruct = 50 := by
  norm_num [totalDeduct, confDeduct, secDeduct, docNoStruct, perfectElems,
    validateStudentData, validateAcademicData, validateVerificationElements]

/-- The validation score of docNoStruct is 50 under any clock. -/
theorem docNoStruct_score (now : CivilDate) :
    (validateOCRResult now (some docNoStruct)).score = 50 := by
  rw [validateOCRResult_score_eq, docNoStruct_deduct]
  rfl

/-- The totalRisk of docNoStruct with a zero biometric score is 25. -/
theorem docNoStruct_totalRisk (now : CivilDate) :
    totalRiskOf now (some docNoStruct) (some 0) none = 25 := by
  simp only [totalRiskOf]
  rw [docNoStruct_score]
  norm_num [docNoStruct, perfectElems, validateVerificationElements]

/-- The totalRisk of docNoStruct with a zero biometric score and a liveness
score of 90 is 26. -/
theorem docNoStruct_totalRisk26 (now : CivilDate) :
    totalRiskOf now (some docNoStruct) (some 0) (some 90) = 26 := by
  simp only [totalRiskOf]
  rw [docNoStruct_score]
  norm_num [docNoStruct, perfectElems, validateVerificationElements]

/-- The totalRisk of an absent document with no optional scores is exactly 50. -/
theorem totalRisk_absent (now : CivilDate) : totalRiskOf now none none none = 50 := by
  norm_num [totalRiskOf]

/-- The totalRisk of an absent document with biometric 100 and liveness 50 is 55. -/
theorem totalRisk_absent55 (now : CivilDate) :
    totalRiskOf now none (some 100) (some 50) = 55 := by
  norm_num [totalRiskOf]

/-- The totalRisk of an absent document with biometric 100 and liveness 40 is 56. -/
theorem totalRisk_absent56 (now : CivilDate) :
    totalRiskOf now none (some 100) (some 40) = 56 := by
  norm_num [totalRiskOf]

/-- The totalRisk of an absent document with biometric 0 is 65, not 50. -/
theorem totalRisk_absent_bio (now : CivilDate) : totalRiskOf now none (some 0) none = 65 := by
  norm_num [totalRiskOf]

/-- jsRound of the numeral 25. -/
theorem jsRound_25 : jsRound 25 = 25 := by
  simpa using jsRound_intCast 25

/-- jsRound of the numeral 26. -/
theorem jsRound_26 : jsRound 26 = 26 := by
  simpa using jsRound_intCast 26

/-- jsRound of the numeral 50. -/
theorem jsRound_50 : jsRound 50 = 50 := by
  simpa using jsRound_intCast 50

/-- jsRound of the numeral 55. -/
theorem jsRound_55 : jsRound 55 = 55 := by
  simpa using jsRound_intCast 55

/-- jsRound of the numeral 56. -/
theorem jsRound_56 : jsRound 56 = 56 := by
  simpa using jsRound_intCast 56

/-- The aggregator agrees everywhere with its variant lacking the secondary
security branch: that branch is unreachable. -/
theorem validateOCRResult_noSecWarn (now : CivilDate) (res : Option OCRResult) :
    validateOCRResult now res = validateOCRResultNoSecWarn now res := by
  cases res with
  | none => rfl
  | some r =>
    by_cases hsec : (validateVerificationElements r.verificationElements).hasSecurityFeatures = true
    · have hm := secure_missing_le r.verificationElements hsec
      have hnot : ¬ (validateVerificationElements r.verificationElements).missingElements.length > 2 := by
        omega
      simp only [validateOCRResult, validateOCRResultNoSecWarn]
      simp [hsec, hnot]
    · rw [Bool.not_eq_true] at hsec
      simp only [validateOCRResult, validateOCRResultNoSecWarn]
      simp [hsec]

/-- Lowering the confidence never lowers the confidence deduction. -/
theorem confDeduct_mono {c cLow : ℚ} (h : cLow ≤ c) : confDeduct c ≤ confDeduct cLow := by
  unfold confDeduct
  split_ifs <;> linarith

/-- Lowering the OCR confidence never increases the validation score. -/
theorem score_mono_conf (now : CivilDate) (r : OCRResult) (cLow : ℚ) (h : cLow ≤ r.confidence) :
    (validateOCRResult now (some (withConfidence r cLow))).score
      ≤ (validateOCRResult now (some r)).score := by
  rw [validateOCRResult_score_eq, validateOCRResult_score_eq]
  have hd := confDeduct_mono h
  simp only [totalDeduct, withConfidence]
  omega

/-- Removing the student name never increases the validation score. -/
theorem score_mono_name (now : CivilDate) (r : OCRResult) :
    (validateOCRResult now (some (removeStudentName r))).score
      ≤ (validateOCRResult now (some r)).score := by
  rw [validateOCRResult_score_eq, validateOCRResult_score_eq]
  cases hs : r.structured with
  | none =>
    simp only [totalDeduct, removeStudentName, hs, Option.map_none']
    omega
  | some d =>
    simp only [totalDeduct, removeStudentName, hs, Option.map_some', validateStudentData,
      validateAcademicData]
    by_cases hn : 3 ≤ (d.studentName.getD "").length
    · simp [hn]
      omega
    · simp [hn]

/-- Clearing any one marker never lowers the security deduction. -/
theorem secDeduct_clear (e : Option VerificationElements) (mk : Marker) :
    secDeduct e ≤ secDeduct (e.map (clearMarker mk)) := by
  cases e with
  | none => simp
  | some el =>
    cases mk <;>
      cases hw : el.hasWatermark.getD false <;> cases hq : el.hasQRCode.getD false <;>
      cases hs : el.hasOfficialStamp.getD false <;> cases hg : el.hasSignature.getD false <;>
      simp_all [clearMarker, secDeduct, validateVerificationElements]

/-- Removing one security marker never increases the validation score. -/
theorem score_mono_marker (now : CivilDate) (r : OCRResult) (mk : Marker) :
    (validateOCRResult now (some (removeMarker mk r))).score
      ≤ (validateOCRResult now (some r)).score := by
  rw [validateOCRResult_score_eq, validateOCRResult_score_eq]
  have hd := secDeduct_clear r.verificationElements mk
  simp only [totalDeduct, removeMarker]
  omega

/-- The validation score is never negative. -/
theorem score_nonneg (now : CivilDate) (res : Option OCRResult) :
    0 ≤ (validateOCRResult now res).score := by
  cases res with
  | none => simp [validateOCRResult]
  | some r =>
    rw [validateOCRResult_score_eq]
    omega

/-- Grade-ignoring matching subject lists have equal lowered name lists. -/
theorem subjEq_names {sa sb : List SubjectGrade} (h : subjectsEqExceptGrades sa sb = true) :
    sa.map (fun s => strLower s.name) = sb.map (fun s => strLower s.name) := by
  induction sa generalizing sb with
  | nil =>
    cases sb with
    | nil => rfl
    | cons t ts => simp [subjectsEqExceptGrades] at h
  | cons s ss ih =>
    cases sb with
    | nil => simp [subjectsEqExceptGrades] at h
    | cons t ts =>
      simp only [subjectsEqExceptGrades, Bool.and_eq_true, beq_iff_eq] at h
      obtain ⟨⟨hn, _⟩, hrest⟩ := h
      simp [hn, ih hrest]

/-- Grade-ignoring matching subject lists have equal lengths. -/
theorem subjEq_length {sa sb : List SubjectGrade} (h : subjectsEqExceptGrades sa sb = true) :
    sa.length = sb.length := by
  induction sa generalizing sb with
  | nil =>
    cases sb with
    | nil => rfl
    | cons t ts => simp [subjectsEqExceptGrades] at h
  | cons s ss ih =>
    cases sb with
    | nil => simp [subjectsEqExceptGrades] at h
    | cons t ts =>
      simp only [subjectsEqExceptGrades, Bool.and_eq_true, beq_iff_eq] at h
      obtain ⟨⟨_, _⟩, hrest⟩ := h
      simp [ih hrest]

/-- Grade-ignoring matching subject lists have equal point accumulations. -/
theorem subjEq_fold {sa sb : List SubjectGrade} (h : subjectsEqExceptGrades sa sb = true) :
    ∀ init : ℚ, sa.foldl (fun sum s => sum + s.points.getD 0) init
      = sb.foldl (fun sum s => sum + s.points.getD 0) init := by
  induction sa generalizing sb with
  | nil =>
    cases sb with
    | nil => intro init; rfl
    | cons t ts => simp [subjectsEqExceptGrades] at h
  | cons s ss ih =>
    cases sb with
    | nil => simp [subjectsEqExceptGrades] at h
    | cons t ts =>
      simp only [subjectsEqExceptGrades, Bool.and_eq_true, beq_iff_eq] at h
      obtain ⟨⟨_, hp⟩, hrest⟩ := h
      intro init
      simp [hp, ih hrest]

/-- Grade-ignoring matching structured data yields identical student
validation. -/
theorem student_eq (now : CivilDate) {s₁ s₂ : Option StructuredData}
    (h : structuredEqExceptGrades s₁ s₂ = true) :
    validateStudentData now s₁ = validateStudentData now s₂ := by
  cases s₁ with
  | none =>
    cases s₂ with
    | none => rfl
    | some b => simp [structuredEqExceptGrades] at h
  | some a =>
    cases s₂ with
    | none => simp [structuredEqExceptGrades] at h
    | some b =>
      simp only [structuredEqExceptGrades, Bool.and_eq_true, beq_iff_eq] at h
      obtain ⟨⟨⟨⟨⟨⟨⟨⟨⟨⟨⟨⟨h1, h2⟩, h3⟩, h4⟩, _⟩, _⟩, _⟩, _⟩, _⟩, _⟩, _⟩, _⟩, _⟩ := h
      simp [validateStudentData, h1, h2, h3, h4]

/-- Grade-ignoring matching structured data yields the same mean-grade,
points and completeness verdicts (everything the aggregator consults). -/
theorem academic_eq {s₁ s₂ : Option StructuredData}
    (h : structuredEqExceptGrades s₁ s₂ = true) :
    (validateAcademicData s₁).meanGradeValid = (validateAcademicData s₂).meanGradeValid
    ∧ (validateAcademicData s₁).pointsValid = (validateAcademicData s₂).pointsValid
    ∧ (validateAcademicData s₁).subjectsComplete = (validateAcademicData s₂).subjectsComplete := by
  cases s₁ with
  | none =>
    cases s₂ with
    | none => exact ⟨rfl, rfl, rfl⟩
    | some b => simp [structuredEqExceptGrades] at h
  | some a =>
    cases s₂ with
    | none => simp [structuredEqExceptGrades] at h
    | some b =>
      simp only [structuredEqExceptGrades, Bool.and_eq_true, beq_iff_eq] at h
      obtain ⟨⟨⟨⟨⟨⟨⟨⟨⟨⟨⟨⟨_, _⟩, _⟩, _⟩, _⟩, _⟩, _⟩, _⟩, _⟩, hmg⟩, _⟩, htp⟩, hsub⟩ := h
      cases ha : a.subjects with
      | none =>
        cases hb : b.subjects with
        | none => simp [validateAcademicData, ha, hb, hmg, htp]
        | some sb => rw [ha, hb] at hsub; simp at hsub
      | some sa =>
        cases hb : b.subjects with
        | none => rw [ha, hb] at hsub; simp at hsub
        | some sb =>
          rw [ha, hb] at hsub
          simp only at hsub
          have hlen := subjEq_length hsub
          have hnames := subjEq_names hsub
          have hfold := subjEq_fold hsub 0
          simp [validateAcademicData, ha, hb, hmg, htp, hlen, hnames, hfold]

/-- Grade-ignoring matching documents validate identically. -/
theorem eqExceptGrades_validate (now : CivilDate) {r₁ r₂ : OCRResult}
    (h : eqExceptGrades r₁ r₂ = true) :
    validateOCRResult now (some r₁) = validateOCRResult now (some r₂) := by
  simp only [eqExceptGrades, Bool.and_eq_true, beq_iff_eq] at h
  obtain ⟨⟨⟨⟨_, hconf⟩, hel⟩, _⟩, hstruct⟩ := h
  have hsv := student_eq now hstruct
  have hac := academic_eq hstruct
  rw [validateOCRResult_some_eq, validateOCRResult_some_eq]
  simp [specValidateDoc, specErrors, specWarnings, totalDeduct, confDeduct, secDeduct,
    hconf, hel, hsv, hac.1, hac.2.1, hac.2.2]

/-- Grade-ignoring matching documents receive identical risk assessments. -/
theorem eqExceptGrades_risk (now : CivilDate) {r₁ r₂ : OCRResult} (b l : Option ℚ)
    (h : eqExceptGrades r₁ r₂ = true) :
    calculateOverallRiskScore now (some r₁) b l = calculateOverallRiskScore now (some r₂) b l := by
  have hval := eqExceptGrades_validate now h
  simp only [eqExceptGrades, Bool.and_eq_true, beq_iff_eq] at h
  obtain ⟨⟨⟨⟨_, hconf⟩, hel⟩, _⟩, _⟩ := h
  simp [calculateOverallRiskScore, totalRiskOf, factorsOf, hconf, hel, hval]

/-- Successful DD/MM/YYYY parses come from ten-character all-digit slash
shapes. -/
theorem parseSlash_shape {s : String} {t : ℤ × ℤ × ℤ} (h : parseSlash s = some t) :
    ∃ d1 d2 m1 m2 y1 y2 y3 y4,
      s.toList = [d1, d2, '/', m1, m2, '/', y1, y2, y3, y4]
      ∧ (d1.isDigit && d2.isDigit && m1.isDigit && m2.isDigit &&
         y1.isDigit && y2.isDigit && y3.isDigit && y4.isDigit) = true
      ∧ t = (twoDigit d1 d2, twoDigit m1 m2, fourDigit y1 y2 y3 y4) := by
  unfold parseSlash at h
  split at h
  · rename_i d1 d2 m1 m2 y1 y2 y3 y4 heq
    split at h
    · rename_i hd
      exact ⟨d1, d2, m1, m2, y1, y2, y3, y4, heq, hd, (Option.some.inj h).symm⟩
    · exact absurd h (by simp)
  · exact absurd h (by simp)

/-- Successful YYYY-MM-DD parses come from ten-character all-digit dash
shapes. -/
theorem parseIso_shape {s : String} {t : ℤ × ℤ × ℤ} (h : parseIso s = some t) :
    ∃ y1 y2 y3 y4 m1 m2 d1 d2,
      s.toList = [y1, y2, y3, y4, '-', m1, m2, '-', d1, d2]
      ∧ (y1.isDigit && y2.isDigit && y3.isDigit && y4.isDigit &&
         m1.isDigit && m2.isDigit && d1.isDigit && d2.isDigit) = true
      ∧ t = (twoDigit d1 d2, twoDigit m1 m2, fourDigit y1 y2 y3 y4) := by
  unfold parseIso at h
  split at h
  · rename_i y1 y2 y3 y4 m1 m2 d1 d2 heq
    split at h
    · rename_i hd
      exact ⟨y1, y2, y3, y4, m1, m2, d1, d2, heq, hd, (Option.some.inj h).symm⟩
    · exact absurd h (by simp)
  · exact absurd h (by simp)

/-- A string matching the DD/MM/YYYY pattern cannot match YYYY-MM-DD. -/
theorem slash_vs_iso {s : String} {t : ℤ × ℤ × ℤ} (h : parseSlash s = some t) :
    parseIso s = none := by
  obtain ⟨d1, d2, m1, m2, y1, y2, y3, y4, hs, hd, _⟩ := parseSlash_shape h
  simp only [Bool.and_eq_true] at hd
  obtain ⟨⟨⟨⟨⟨⟨⟨_, _⟩, _⟩, hm2⟩, _⟩, _⟩, _⟩, _⟩ := hd
  unfold parseIso
  rw [hs]
  split
  · rename_i heq
    simp only [List.cons.injEq] at heq
    obtain ⟨_, _, _, _, hdash, _⟩ := heq
    rw [hdash] at hm2
    exact absurd hm2 (by decide)
  · rfl

/-- A string matching the DD/MM/YYYY pattern cannot match DD-MM-YYYY. -/
theorem slash_vs_dash {s : String} {t : ℤ × ℤ × ℤ} (h : parseSlash s = some t) :
    parseDash s = none := by
  obtain ⟨d1, d2, m1, m2, y1, y2, y3, y4, hs, _, _⟩ := parseSlash_shape h
  unfold parseDash
  rw [hs]
  split
  · rename_i heq
    simp only [List.cons.injEq] at heq
    obtain ⟨_, _, hdash, _⟩ := heq
    exact absurd hdash (by decide)
  · rfl

/-- A string matching the YYYY-MM-DD pattern cannot match DD-MM-YYYY. -/
theorem iso_vs_dash {s : String} {t : ℤ × ℤ × ℤ} (h : parseIso s = some t) :
    parseDash s = none := by
  obtain ⟨y1, y2, y3, y4, m1, m2, d1, d2, hs, hd, _⟩ := parseIso_shape h
  simp only [Bool.and_eq_true] at hd
  obtain ⟨⟨⟨⟨⟨⟨⟨_, _⟩, hy3⟩, _⟩, _⟩, _⟩, _⟩, _⟩ := hd
  unfold parseDash
  rw [hs]
  split
  · rename_i heq
    simp only [List.cons.injEq] at heq
    obtain ⟨_, _, hdash, _⟩ := heq
    rw [hdash] at hy3
    exact absurd hy3 (by decide)
  · rfl

/-- The age/future check succeeds exactly under its stated conditions. -/
theorem dobCheck_some_iff (now : CivilDate) (d m y : ℤ) {dt : ℤ}
    (h : dobCheck now (d, m, y) = some dt) :
    15 ≤ now.year - y ∧ now.year - y ≤ 40 ∧ jsMakeDate y (m - 1) d ≤ civilDays now := by
  simp only [dobCheck] at h
  split_ifs at h with hcond
  exact hcond

/-- The age/future check fails exactly when its stated conditions fail. -/
theorem dobCheck_none_iff (now : CivilDate) (d m y : ℤ) :
    dobCheck now (d, m, y) = none
      ↔ ¬ (15 ≤ now.year - y ∧ now.year - y ≤ 40 ∧ jsMakeDate y (m - 1) d ≤ civilDays now) := by
  simp only [dobCheck]
  split_ifs with hcond
  · simp [hcond]
  · exact iff_of_true rfl hcond

/-- The age/future check, when it holds, returns validity. -/
theorem dobCheck_of_cond (now : CivilDate) (d m y : ℤ)
    (h : 15 ≤ now.year - y ∧ now.year - y ≤ 40 ∧ jsMakeDate y (m - 1) d ≤ civilDays now) :
    dobCheck now (d, m, y) = some (jsMakeDate y (m - 1) d) := by
  simp only [dobCheck]
  rw [if_pos h]

/-- validateDateOfBirth reports valid exactly when the first matching format
(in the fixed order DD/MM/YYYY, YYYY-MM-DD, DD-MM-YYYY) yields a JS date that
is not in the future and a literal-year age between 15 and 40 inclusive. -/
theorem validateDateOfBirth_valid_iff (now : CivilDate) (s : String) :
    (validateDateOfBirth s now).valid = true
      ↔ ∃ d m y, firstParse s = some (d, m, y)
          ∧ jsMakeDate y (m - 1) d ≤ civilDays now
          ∧ 15 ≤ now.year - y ∧ now.year - y ≤ 40 := by
  by_cases hemp : s = ""
  · subst hemp
    have e1 : parseSlash "" = none := rfl
    have e2 : parseIso "" = none := rfl
    have e3 : parseDash "" = none := rfl
    simp [validateDateOfBirth, firstParse, e1, e2, e3]
  · have hv : validateDateOfBirth s now
        = dobStep now (parseSlash s)
            (dobStep now (parseIso s) (dobStep now (parseDash s) ⟨false, none⟩)) := by
      simp [validateDateOfBirth, hemp]
    rw [hv]
    cases h1 : parseSlash s with
    | some t =>
      obtain ⟨d, m, y⟩ := t
      have h2 : parseIso s = none := slash_vs_iso h1
      have h3 : parseDash s = none := slash_vs_dash h1
      have hfp : firstParse s = some (d, m, y) := by simp [firstParse, h1]
      cases hc : dobCheck now (d, m, y) with
      | some dt =>
        have hcond := dobCheck_some_iff now d m y hc
        constructor
        · intro _
          exact ⟨d, m, y, hfp, hcond.2.2, hcond.1, hcond.2.1⟩
        · intro _
          simp [dobStep, hc]
      | none =>
        constructor
        · intro hcontra
          simp [dobStep, hc, h2, h3] at hcontra
        · rintro ⟨dd, mm, yy, hfp2, hfut, h15, h40⟩
          rw [hfp] at hfp2
          simp only [Option.some.injEq, Prod.mk.injEq] at hfp2
          obtain ⟨ha, hb, hcy⟩ := hfp2
          subst ha
          subst hb
          subst hcy
          exact absurd ⟨h15, h40, hfut⟩ ((dobCheck_none_iff now d m y).mp hc)
    | none =>
      cases h2 : parseIso s with
      | some t =>
        obtain ⟨d, m, y⟩ := t
        have h3 : parseDash s = none := iso_vs_dash h2
        have hfp : firstParse s = some (d, m, y) := by simp [firstParse, h1, h2]
        cases hc : dobCheck now (d, m, y) with
        | some dt =>
          have hcond := dobCheck_some_iff now d m y hc
          constructor
          · intro _
            exact ⟨d, m, y, hfp, hcond.2.2, hcond.1, hcond.2.1⟩
          · intro _
            simp [dobStep, hc]
        | none =>
          constructor
          · intro hcontra
            simp [dobStep, hc, h3] at hcontra
          · rintro ⟨dd, mm, yy, hfp2, hfut, h15, h40⟩
            rw [hfp] at hfp2
            simp only [Option.some.injEq, Prod.mk.injEq] at hfp2
            obtain ⟨ha, hb, hcy⟩ := hfp2
            subst ha
            subst hb
            subst hcy
            exact absurd ⟨h15, h40, hfut⟩ ((dobCheck_none_iff now d m y).mp hc)
      | none =>
        cases h3 : parseDash s with
        | some t =>
          obtain ⟨d, m, y⟩ := t
          have hfp : firstParse s = some (d, m, y) := by simp [firstParse, h1, h2, h3]
          cases hc : dobCheck now (d, m, y) with
          | some dt =>
            have hcond := dobCheck_some_iff now d m y hc
            constructor
            · intro _
              exact ⟨d, m, y, hfp, hcond.2.2, hcond.1, hcond.2.1⟩
            · intro _
              simp [dobStep, hc]
          | none =>
            constructor
            · intro hcontra
              simp [dobStep, hc] at hcontra
            · rintro ⟨dd, mm, yy, hfp2, hfut, h15, h40⟩
              rw [hfp] at hfp2
              simp only [Option.some.injEq, Prod.mk.injEq] at hfp2
              obtain ⟨ha, hb, hcy⟩ := hfp2
              subst ha
              subst hb
              subst hcy
              exact absurd ⟨h15, h40, hfut⟩ ((dobCheck_none_iff now d m y).mp hc)
        | none =>
          have hfp : firstParse s = none := by simp [firstParse, h1, h2, h3]
          constructor
          · intro hcontra
            simp [dobStep] at hcontra
          · rintro ⟨dd, mm, yy, hfp2, _⟩
            rw [hfp] at hfp2
            exact absurd hfp2 (by simp)

/-- The JavaScript falsy test on an optional boolean prop is the not-set-to-
true test. -/
theorem getD_false_eq_not_true (o : Option Bool) : ((!(o.getD false)) = true) ↔ o ≠ some true := by
  cases o with
  | none => simp
  | some b => cases b <;> simp

/-- The indicators contributed by one concern, restated with the two
classification predicates. -/
theorem concernIndicator_eq (c : String) :
    concernIndicator c
      = (if isDeepfakeConcern c then [⟨"AI Detection Alert", true, .high, c⟩]
         else if isQualityConcern c then [⟨"Image Quality Issue", true, .low, c⟩]
         else []) := by
  cases hA : strIncludes (strLower c) "deepfake" || strIncludes (strLower c) "synthetic" <;>
    cases hQ : strIncludes (strLower c) "quality" || strIncludes (strLower c) "blur" <;>
    simp [concernIndicator, isDeepfakeConcern, isQualityConcern, hA, hQ]

/-- The sequential forEach over concerns is the fold of the per-concern
classification. -/
theorem concernIndicators_eq (cs : List String) :
    concernIndicators cs
      = cs.foldr (fun c acc =>
          (if isDeepfakeConcern c then [⟨"AI Detection Alert", true, .high, c⟩]
           else if isQualityConcern c then [⟨"Image Quality Issue", true, .low, c⟩]
           else []) ++ acc) [] := by
  induction cs with
  | nil => rfl
  | cons c cs ih => simp [concernIndicators, concernIndicator_eq, ih]

/-- The indicator list built by analyzeDeepfakeRisk agrees with its rule-by-
rule specification form. -/
theorem analyze_indicators_eq (p : DeepfakeProps) :
    (analyzeDeepfakeRisk p).indicators = specIndicators p := by
  simp only [analyzeDeepfakeRisk, specIndicators, concernIndicators_eq, getD_false_eq_not_true]

/-- High-severity count of the concern-contributed indicators. -/
theorem concerns_high_count (cs : List String) :
    ((cs.foldr (fun c acc =>
        (if isDeepfakeConcern c then ([⟨"AI Detection Alert", true, .high, c⟩] : List Indicator)
         else if isQualityConcern c then [⟨"Image Quality Issue", true, .low, c⟩]
         else []) ++ acc) []).filter (fun i => i.severity == Severity.high)).length
      = cs.countP isDeepfakeConcern := by
  induction cs with
  | nil => rfl
  | cons c cs ih =>
    cases hA : isDeepfakeConcern c <;> cases hQ : isQualityConcern c <;>
      simp +decide [List.filter_append, hA, hQ, ih, List.countP_cons]

/-- Medium-severity count of the concern-contributed indicators: none. -/
theorem concerns_med_count (cs : List String) :
    ((cs.foldr (fun c acc =>
        (if isDeepfakeConcern c then ([⟨"AI Detection Alert", true, .high, c⟩] : List Indicator)
         else if isQualityConcern c then [⟨"Image Quality Issue", true, .low, c⟩]
         else []) ++ acc) []).filter (fun i => i.severity == Severity.medium)).length
      = 0 := by
  induction cs with
  | nil => rfl
  | cons c cs ih =>
    cases hA : isDeepfakeConcern c <;> cases hQ : isQualityConcern c <;>
      simp +decide [List.filter_append, hA, hQ, ih]

/-- The high-severity indicator count agrees with its input-level form. -/
theorem specIndicators_high (p : DeepfakeProps) :
    ((specIndicators p).filter (fun i => i.severity == Severity.high)).length
      = specHighCount p := by
  cases hli : p.livenessIndicators with
  | none =>
    cases hc : p.concerns with
    | none =>
      simp +decide [specIndicators, specHighCount, hli, hc, List.filter_append, apply_ite
        (List.filter (fun i : Indicator => i.severity == Severity.high))]
      split_ifs <;> simp
    | some cs =>
      simp +decide [specIndicators, specHighCount, hli, hc, List.filter_append, apply_ite
        (List.filter (fun i : Indicator => i.severity == Severity.high)), concerns_high_count]
      split_ifs <;> simp [concerns_high_count]
  | some li =>
    cases hc : p.concerns with
    | none =>
      simp +decide [specIndicators, specHighCount, hli, hc, List.filter_append, apply_ite
        (List.filter (fun i : Indicator => i.severity == Severity.high))]
      split_ifs <;> simp
    | some cs =>
      simp +decide [specIndicators, specHighCount, hli, hc, List.filter_append, apply_ite
        (List.filter (fun i : Indicator => i.severity == Severity.high)), concerns_high_count]
      split_ifs <;> (try simp [concerns_high_count]) <;> omega

/-- The medium-severity indicator count agrees with its input-level form. -/
theorem specIndicators_med (p : DeepfakeProps) :
    ((specIndicators p).filter (fun i => i.severity == Severity.medium)).length
      = specMedCount p := by
  cases hli : p.livenessIndicators with
  | none =>
    cases hc : p.concerns with
    | none =>
      simp +decide [specIndicators, specMedCount, hli, hc, List.filter_append, apply_ite
        (List.filter (fun i : Indicator => i.severity == Severity.medium))]
      split_ifs <;> simp
    | some cs =>
      simp +decide [specIndicators, specMedCount, hli, hc, List.filter_append, apply_ite
        (List.filter (fun i : Indicator => i.severity == Severity.medium)), concerns_med_count]
      split_ifs <;> simp [concerns_med_count]
  | some li =>
    cases hc : p.concerns with
    | none =>
      simp +decide [specIndicators, specMedCount, hli, hc, List.filter_append, apply_ite
        (List.filter (fun i : Indicator => i.severity == Severity.medium))]
      split_ifs <;> simp
    | some cs =>
      simp +decide [specIndicators, specMedCount, hli, hc, List.filter_append, apply_ite
        (List.filter (fun i : Indicator => i.severity == Severity.medium)), concerns_med_count]
      split_ifs <;> simp [concerns_med_count]

/-- The deepfake confidence computed by analyzeDeepfakeRisk in terms of the
input-level counts. -/
theorem analyze_confidence_eq (p : DeepfakeProps) :
    (analyzeDeepfakeRisk p).confidence
      = min 100 ((specHighCount p : ℚ) * 30 + (specMedCount p : ℚ) * 15
          + (100 - p.livenessScore)) := by
  have hh := specIndicators_high p
  have hm := specIndicators_med p
  have hi := analyze_indicators_eq p
  simp only [analyzeDeepfakeRisk] at hi ⊢
  rw [hi, hh, hm]

/-- C1 counterexample: with the document absent but a biometric score of 0
provided, the accumulated totalRisk is 65 (not 50) and two factors are
recorded (not one), refuting the claim that an absent document always leaves
totalRisk at exactly 50 with a single factor. -/
theorem riskScore_absent_counterexample :
    ¬ (totalRiskOf sampleNow none (some 0) none = 50
       ∧ (calculateOverallRiskScore sampleNow none (some 0) none).factors.length = 1) := by
  rintro ⟨h, _⟩
  rw [totalRisk_absent_bio] at h
  norm_num at h

/-- C1 (amended): calculateOverallRiskScore accumulates totalRisk as
0.30*(100 - confidence*100) + 0.25*(15*missingElementCount) +
0.20*(100 - validationScore) for a present document; the absent-document
branch contributes a flat 50 and pushes the single factor
(OCR Data, impact 100, bad); the 0.15 and 0.10 weighted terms are added
exactly when the biometric and liveness scores are provided, in both cases;
the returned riskScore equals round(clamp(totalRisk, 0, 100)); and with the
document absent and no optional scores, totalRisk is exactly 50 with exactly
the one factor. -/
theorem riskScore_weighted_accumulation :
    (∀ now doc b l, totalRiskOf now doc b l = specTotalRisk now doc b l)
    ∧ (∀ now doc b l, (calculateOverallRiskScore now doc b l).riskScore
        = jsRound (min 100 (max 0 (totalRiskOf now doc b l))))
    ∧ (∀ now b l, factorsOf now none b l
        = ⟨"OCR Data", 100, .bad⟩ :: (bioFactors b ++ livFactors l))
    ∧ (∀ now, totalRiskOf now none none none = 50
        ∧ (calculateOverallRiskScore now none none none).factors
            = [⟨"OCR Data", 100, .bad⟩]) := by
  refine ⟨totalRiskOf_eq_spec, ?_, factorsOf_none, ?_⟩
  · intro now doc b l
    rw [riskScore_eq, jsRound_clamp]
  · intro now
    exact ⟨totalRisk_absent now, by simp [calculateOverallRiskScore, factorsOf_none,
      bioFactors, livFactors]⟩

/-- C2: the verdict is determined solely by the final integer riskScore with
thresholds 25 and 55; riskScore 25 gives verified, 26 and 55 give flagged,
56 gives rejected; and with everything absent totalRisk is exactly 50 and the
verdict is flagged. -/
theorem verdict_thresholds :
    (∀ now doc b l, (calculateOverallRiskScore now doc b l).verdict
        = (if (calculateOverallRiskScore now doc b l).riskScore ≤ 25 then Verdict.verified
           else if (calculateOverallRiskScore now doc b l).riskScore ≤ 55 then Verdict.flagged
           else Verdict.rejected))
    ∧ (∀ now doc b l, (calculateOverallRiskScore now doc b l).riskScore = 25 →
        (calculateOverallRiskScore now doc b l).verdict = Verdict.verified)
    ∧ (∀ now doc b l, (calculateOverallRiskScore now doc b l).riskScore = 26 →
        (calculateOverallRiskScore now doc b l).verdict = Verdict.flagged)
    ∧ (∀ now doc b l, (calculateOverallRiskScore now doc b l).riskScore = 55 →
        (calculateOverallRiskScore now doc b l).verdict = Verdict.flagged)
    ∧ (∀ now doc b l, (calculateOverallRiskScore now doc b l).riskScore = 56 →
        (calculateOverallRiskScore now doc b l).verdict = Verdict.rejected)
    ∧ (∀ now, totalRiskOf now none none none = 50
        ∧ (calculateOverallRiskScore now none none none).verdict = Verdict.flagged) := by
  refine ⟨fun now doc b l => verdict_eq now doc b l, ?_, ?_, ?_, ?_, ?_⟩
  · intro now doc b l h
    rw [verdict_eq, h]
    norm_num
  · intro now doc b l h
    rw [verdict_eq, h]
    norm_num
  · intro now doc b l h
    rw [verdict_eq, h]
    norm_num
  · intro now doc b l h
    rw [verdict_eq, h]
    norm_num
  · intro now
    refine ⟨totalRisk_absent now, ?_⟩
    have h : (calculateOverallRiskScore now none none none).riskScore = 50 := by
      rw [riskScore_eq, totalRisk_absent, jsRound_50]
      decide
    rw [verdict_eq, h]
    norm_num

/-- C2 witness: concrete inputs reaching risk scores 25, 26, 55 and 56
receive the verdicts verified, flagged, flagged and rejected. -/
theorem verdict_thresholds_witness :
    (calculateOverallRiskScore sampleNow (some docNoStruct) (some 0) none).verdict
      = Verdict.verified
    ∧ (calculateOverallRiskScore sampleNow (some docNoStruct) (some 0) (some 90)).verdict
      = Verdict.flagged
    ∧ (calculateOverallRiskScore sampleNow none (some 100) (some 50)).verdict = Verdict.flagged
    ∧ (calculateOverallRiskScore sampleNow none (some 100) (some 40)).verdict
      = Verdict.rejected := by
  refine ⟨verdict_thresholds.2.1 sampleNow _ _ _ ?_,
    verdict_thresholds.2.2.1 sampleNow _ _ _ ?_,
    verdict_thresholds.2.2.2.1 sampleNow _ _ _ ?_,
    verdict_thresholds.2.2.2.2.1 sampleNow _ _ _ ?_⟩
  · rw [riskScore_eq, docNoStruct_totalRisk, jsRound_25]
    decide
  · rw [riskScore_eq, docNoStruct_totalRisk26, jsRound_26]
    decide
  · rw [riskScore_eq, totalRisk_absent55, jsRound_55]
    decide
  · rw [riskScore_eq, totalRisk_absent56, jsRound_56]
    decide

/-- C3: validateOCRResult on a present document equals its specification
form: errors and warnings are the ordered concatenation of the per-check
messages, the score is 100 minus the sum of the independent per-check
deductions clamped at 0, and isValid holds exactly when the error list is
empty. -/
theorem validateOCRResult_spec_form :
    (∀ now r, validateOCRResult now (some r) = specValidateDoc now r)
    ∧ (∀ now res, (validateOCRResult now res).isValid
        = (validateOCRResult now res).errors.isEmpty) := by
  refine ⟨validateOCRResult_some_eq, ?_⟩
  intro now res
  cases res with
  | none => rfl
  | some r =>
    rw [validateOCRResult_some_eq]
    rfl

/-- C4: every core function is total on its modeled inputs: absent inputs
yield the documented degenerate results (validateOCRResult returns the single
no-data error with score 0), the field validators reject empty input, the
validation score is never negative, the risk score is always within
[0, 100], and the deepfake heuristic always returns a confidence of at most
100. -/
theorem core_totality :
    (∀ now, validateOCRResult now none
        = ⟨false, ["No OCR data available"], [], 0⟩)
    ∧ (∀ now, validateStudentData now none = ⟨false, false, false, false⟩)
    ∧ validateAcademicData none = ⟨false, false, false, false⟩
    ∧ validateVerificationElements none
        = ⟨false, ["watermark", "QR code", "official stamp", "signature"], []⟩
    ∧ validateIndexNumber "" = false
    ∧ validateGrade "" = false
    ∧ (∀ now, (validateDateOfBirth "" now).valid = false)
    ∧ (∀ now res, 0 ≤ (validateOCRResult now res).score)
    ∧ (∀ now doc b l, 0 ≤ (calculateOverallRiskScore now doc b l).riskScore
        ∧ (calculateOverallRiskScore now doc b l).riskScore ≤ 100)
    ∧ (∀ p, (analyzeDeepfakeRisk p).confidence ≤ 100) := by
  refine ⟨fun now => rfl, fun now => rfl, rfl, rfl, rfl, rfl, fun now => rfl,
    score_nonneg, ?_, ?_⟩
  · intro now doc b l
    constructor <;> (rw [riskScore_eq]; omega)
  · intro p
    rw [analyze_confidence_eq]
    exact min_le_left _ _

/-- C5: validateDateOfBirth tries DD/MM/YYYY, YYYY-MM-DD, DD-MM-YYYY in that
order and reports valid exactly when the first matching format yields a
calendar date not in the future with a literal-year age in [15, 40]; in
particular ages 15 and 40 are valid, 14 and 41 are invalid, and a future date
is invalid. -/
theorem dob_validity :
    (∀ now s, (validateDateOfBirth s now).valid = true
        ↔ ∃ d m y, firstParse s = some (d, m, y)
            ∧ jsMakeDate y (m - 1) d ≤ civilDays now
            ∧ 15 ≤ now.year - y ∧ now.year - y ≤ 40)
    ∧ (∀ now s d m y, firstParse s = some (d, m, y) →
        civilDays now < jsMakeDate y (m - 1) d → (validateDateOfBirth s now).valid = false)
    ∧ (validateDateOfBirth "01/01/2011" sampleNow).valid = true
    ∧ (validateDateOfBirth "01/01/1986" sampleNow).valid = true
    ∧ (validateDateOfBirth "01/01/2012" sampleNow).valid = false
    ∧ (validateDateOfBirth "01/01/1985" sampleNow).valid = false
    ∧ (validateDateOfBirth "15/05/2060" sampleNow).valid = false := by
  refine ⟨validateDateOfBirth_valid_iff, ?_, by decide, by decide, by decide, by decide,
    by decide⟩
  intro now s d m y hfp hfut
  cases hv : (validateDateOfBirth s now).valid with
  | false => rfl
  | true =>
    exfalso
    obtain ⟨dd, mm, yy, hfp2, hfut2, _⟩ := (validateDateOfBirth_valid_iff now s).mp hv
    rw [hfp] at hfp2
    simp only [Option.some.injEq, Prod.mk.injEq] at hfp2
    obtain ⟨ha, hb, hcy⟩ := hfp2
    subst ha
    subst hb
    subst hcy
    omega

/-- C5 witness: a concrete future date parsed by the first format is
reported invalid. -/
theorem dob_validity_witness :
    (validateDateOfBirth "15/05/2060" sampleNow).valid = false :=
  dob_validity.2.1 sampleNow "15/05/2060" 15 5 2060 (by decide) (by decide)

/-- The deepfake flag in terms of the returned confidence. -/
theorem analyze_isLikely_eq (p : DeepfakeProps) :
    (analyzeDeepfakeRisk p).isLikelyDeepfake
      = decide ((analyzeDeepfakeRisk p).confidence > 50) := rfl

/-- The recommendation in terms of the returned confidence. -/
theorem analyze_rec_eq (p : DeepfakeProps) :
    (analyzeDeepfakeRisk p).recommendation
      = (if (analyzeDeepfakeRisk p).confidence > 70 then Recommendation.reject
         else if (analyzeDeepfakeRisk p).confidence > 40 then Recommendation.review
         else Recommendation.safe) := rfl

/-- The specification indicator list at the lighting-unspecified input. -/
theorem specIndicators_unspec :
    specIndicators propsUnspecLighting
      = [⟨"Unnatural Lighting", true, .medium,
          "Lighting patterns inconsistent with natural environment"⟩] := by
  norm_num [specIndicators, propsUnspecLighting]
  all_goals decide

/-- C6 counterexample: with the liveness record present, three indicators
explicitly true, the lighting indicator left unspecified (not explicitly
false), a liveness score of 100 and no concerns, the code still emits one
indicator and a confidence of 15, refuting the claim that indicators arise
only from explicitly-false liveness indicators. -/
theorem deepfake_explicit_false_counterexample :
    propsUnspecLighting.livenessIndicators
      = some ⟨none, some true, some true, some true⟩
    ∧ (analyzeDeepfakeRisk propsUnspecLighting).indicators.length = 1
    ∧ (analyzeDeepfakeRisk propsUnspecLighting).confidence = 15
    ∧ ¬ ((analyzeDeepfakeRisk propsUnspecLighting).indicators.length = 0
         ∧ (analyzeDeepfakeRisk propsUnspecLighting).confidence = 0) := by
  have hi : (analyzeDeepfakeRisk propsUnspecLighting).indicators.length = 1 := by
    rw [analyze_indicators_eq, specIndicators_unspec]
    rfl
  have hc : (analyzeDeepfakeRisk propsUnspecLighting).confidence = 15 := by
    rw [analyze_confidence_eq]
    have hh : specHighCount propsUnspecLighting = 0 := by
      norm_num [specHighCount, propsUnspecLighting]
    have hm : specMedCount propsUnspecLighting = 1 := by
      norm_num [specMedCount, propsUnspecLighting]
      decide
    rw [hh, hm]
    norm_num [propsUnspecLighting]
  refine ⟨rfl, hi, hc, ?_⟩
  rintro ⟨h0, _⟩
  rw [hi] at h0
  exact absurd h0 (by norm_num)

/-- C6 (amended): analyzeDeepfakeRisk builds its indicator list from the
inputs with one fixed-severity indicator per liveness indicator that is not
set to true (explicitly false or unspecified), the liveness-score indicator,
and one classified indicator per concern (deepfake/synthetic taking
precedence over quality/blur); the confidence is min(100, 30*high + 15*medium
+ (100 - livenessScore)); isLikelyDeepfake holds exactly above 50; the
recommendation is reject above 70, review above 40, else safe; and a perfect
liveness score with all indicators true and no concerns yields zero
indicators, confidence 0 and recommendation safe. -/
theorem analyzeDeepfakeRisk_characterization :
    (∀ p, (analyzeDeepfakeRisk p).indicators = specIndicators p)
    ∧ (∀ p, (analyzeDeepfakeRisk p).confidence
        = min 100 ((specHighCount p : ℚ) * 30 + (specMedCount p : ℚ) * 15
            + (100 - p.livenessScore)))
    ∧ (∀ p, (analyzeDeepfakeRisk p).isLikelyDeepfake
        = decide ((analyzeDeepfakeRisk p).confidence > 50))
    ∧ (∀ p, (analyzeDeepfakeRisk p).recommendation
        = (if (analyzeDeepfakeRisk p).confidence > 70 then Recommendation.reject
           else if (analyzeDeepfakeRisk p).confidence > 40 then Recommendation.review
           else Recommendation.safe))
    ∧ ((analyzeDeepfakeRisk propsAllGood).indicators = []
       ∧ (analyzeDeepfakeRisk propsAllGood).confidence = 0
       ∧ (analyzeDeepfakeRisk propsAllGood).recommendation = Recommendation.safe) := by
  have hgood : (analyzeDeepfakeRisk propsAllGood).confidence = 0 := by
    rw [analyze_confidence_eq]
    have hh : specHighCount propsAllGood = 0 := by
      norm_num [specHighCount, propsAllGood]
    have hm : specMedCount propsAllGood = 0 := by
      norm_num [specMedCount, propsAllGood]
    rw [hh, hm]
    norm_num [propsAllGood]
  refine ⟨analyze_indicators_eq, analyze_confidence_eq, analyze_isLikely_eq, analyze_rec_eq,
    ?_, hgood, ?_⟩
  · rw [analyze_indicators_eq]
    norm_num [specIndicators, propsAllGood]
  · rw [analyze_rec_eq, hgood]
    norm_num

/-- C7: introducing a defect (lowering the OCR confidence, removing the
student name, or removing a security marker) never increases the validation
score, and the score is never negative. -/
theorem score_monotone_under_defects :
    (∀ now (r : OCRResult) (cLow : ℚ), cLow ≤ r.confidence →
      (validateOCRResult now (some (withConfidence r cLow))).score
        ≤ (validateOCRResult now (some r)).score)
    ∧ (∀ now r, (validateOCRResult now (some (removeStudentName r))).score
        ≤ (validateOCRResult now (some r)).score)
    ∧ (∀ now r mk, (validateOCRResult now (some (removeMarker mk r))).score
        ≤ (validateOCRResult now (some r)).score)
    ∧ (∀ now res, 0 ≤ (validateOCRResult now res).score) :=
  ⟨score_mono_conf, score_mono_name, score_mono_marker, score_nonneg⟩

/-- C7 witness: dropping the confidence of the concrete document from 1 to 0
does not increase its validation score. -/
theorem score_monotone_witness :
    (validateOCRResult sampleNow (some (withConfidence docNoStruct 0))).score
      ≤ (validateOCRResult sampleNow (some docNoStruct)).score :=
  score_monotone_under_defects.1 sampleNow docNoStruct 0 (by norm_num [docNoStruct])

/-- C8: sufficient security features leave at most two missing elements, so
the partial-security warning branch with its -10 deduction is dead: the
aggregator agrees everywhere with the variant from which that branch is
removed. -/
theorem secWarning_unreachable :
    (∀ e, (validateVerificationElements e).hasSecurityFeatures = true →
        (validateVerificationElements e).missingElements.length ≤ 2)
    ∧ (∀ now res, validateOCRResult now res = validateOCRResultNoSecWarn now res) :=
  ⟨secure_missing_le, validateOCRResult_noSecWarn⟩

/-- C8 witness: the all-markers-present record has sufficient features and at
most two missing elements. -/
theorem secWarning_unreachable_witness :
    (validateVerificationElements (some perfectElems)).missingElements.length ≤ 2 :=
  secWarning_unreachable.1 (some perfectElems) (by decide)

/-- C9: subject grade strings never influence the aggregator or the risk
engine: two documents identical except for grades validate identically and
receive identical risk assessments. -/
theorem grades_no_influence :
    ∀ now (a b : OCRResult) (bio liv : Option ℚ), eqExceptGrades a b = true →
      validateOCRResult now (some a) = validateOCRResult now (some b)
      ∧ calculateOverallRiskScore now (some a) bio liv
        = calculateOverallRiskScore now (some b) bio liv :=
  fun now _ _ bio liv h => ⟨eqExceptGrades_validate now h, eqExceptGrades_risk now bio liv h⟩

/-- C9 witness: two concrete documents differing only in a subject grade (A
versus E) validate and score identically. -/
theorem grades_no_influence_witness :
    validateOCRResult sampleNow (some docSubjA) = validateOCRResult sampleNow (some docSubjE)
    ∧ calculateOverallRiskScore sampleNow (some docSubjA) none none
      = calculateOverallRiskScore sampleNow (some docSubjE) none none :=
  grades_no_influence sampleNow docSubjA docSubjE none none (by decide)

/-- C10: validateDateOfBirth accepts 25/25/2000, whose month field 25 exceeds
12: the DD/MM/YYYY digit pattern matches, JavaScript Date construction rolls
the excess months over to 2002-01-25, the literal-year age passes, and the
rolled-over past date passes the future check. -/
theorem dob_rollover_accepted :
    parseSlash "25/25/2000" = some (25, 25, 2000)
    ∧ jsMakeDate 2000 24 25 = dateValue 2002 1 25
    ∧ (validateDateOfBirth "25/25/2000" sampleNow).valid = true
    ∧ (validateDateOfBirth "25/25/2000" sampleNow).date = some (dateValue 2002 1 25) := by
  refine ⟨by decide, by decide, by decide, by decide⟩
